import Mathlib

/-!
Verification development for the `InheritanceAiFhe` contract
(`src/contracts/Inheritance_AI_Fhe.sol`).

The contract is embedded shallowly:

* Ciphertexts (`euint32` / `ebool` handles of the encrypted-arithmetic
  adapter) are modelled as symbolic operation trees (`Ct`).  The adapter
  assigns every operation result a fresh handle that is a deterministic,
  collision-free function of the operation and its operand handles, and a
  trivial encryption a handle determined by its 32-bit plaintext; the tree
  itself plays the role of that handle, idealising the handle computation
  as injective.  The uninitialized handle (`bytes32(0)` in the source) is
  the distinguished leaf `Ct.uninit`.
* `keccak256(abi.encode(cts, address(this)))` in `_hashCiphertexts` is
  idealised as the injective pairing of the handle list with the contract
  address; the all-zero `bytes32` default of a never-written storage slot
  is modelled by the pair `([], 0)`, which is outside the range of the
  pairing on 3-element ciphertext lists.
* Contract storage is the record `State`; Solidity mappings are total
  functions with the zero default.  Every external function becomes a
  function `State → … → Except Err State`; a revert is `Except.error`
  and, matching the all-or-nothing transaction semantics, carries no
  state, so a failed call leaves the caller's state untouched.
* `block.timestamp` and the oracle-chosen `requestId` are explicit
  parameters supplied by the environment.
* Emitted events are accumulated in an append-only `events` list so that
  "emits no event" is a statement about the returned state.
-/

namespace InheritanceAiFhe

/-- Symbolic ciphertext handle of the encrypted-arithmetic adapter.
`uninit` is the zero handle of a never-written storage slot; `triv v` is
the trivial encryption of the 32-bit value `v`; the remaining nodes are
the homomorphic operations the contract uses.  Handle determinism and
collision freedom of the adapter are idealised by using the tree itself
as the handle. -/
inductive Ct where
  | uninit : Ct
  | triv (v : Nat) : Ct
  | max (a b : Ct) : Ct
  | sub (a b : Ct) : Ct
  | ge (a b : Ct) : Ct
deriving DecidableEq, Repr

namespace FHE

/-- `FHE.asEuint32`: trivial encryption, truncating to 32 bits. -/
def asEuint32 (v : Nat) : Ct := .triv (v % 2 ^ 32)

/-- `FHE.isInitialized`: the handle is nonzero. -/
def isInitialized : Ct → Bool
  | .uninit => false
  | _ => true

/-- `FHE.max`: homomorphic maximum (fresh symbolic handle). -/
def fheMax (a b : Ct) : Ct := .max a b

/-- `FHE.sub`: homomorphic subtraction (fresh symbolic handle). -/
def fheSub (a b : Ct) : Ct := .sub a b

/-- `FHE.ge`: homomorphic greater-or-equal comparison (fresh symbolic
handle, of encrypted-boolean kind). -/
def fheGe (a b : Ct) : Ct := .ge a b

/-- `FHE.toBytes32`: serialize a ciphertext to its opaque handle.  In
this model the handle is the tree itself. -/
def toBytes32 (c : Ct) : Ct := c

/-- Cleartext meaning of a ciphertext, as 32-bit machine arithmetic:
`sub` wraps modulo `2 ^ 32`, `ge` yields the encrypted booleans 1/0, and
the uninitialized handle carries the all-zero plaintext. -/
def decrypt : Ct → Nat
  | .uninit => 0
  | .triv v => v % 2 ^ 32
  | .max a b => Nat.max (decrypt a) (decrypt b)
  | .sub a b => (decrypt a + 2 ^ 32 - decrypt b) % 2 ^ 32
  | .ge a b => if decrypt b ≤ decrypt a then 1 else 0

end FHE

/-- The custom errors of the contract. -/
inductive Err where
  | NotOwner
  | NotProvider
  | Paused
  | CooldownActive
  | BatchClosedOrInvalid
  | InvalidThreshold
  | ReplayDetected
  | StateMismatch
  | DecryptionFailed
deriving DecidableEq, Repr

/-- The events emitted by the contract. -/
inductive Event where
  | OwnershipTransferred (previousOwner newOwner : Nat)
  | ProviderAdded (provider : Nat)
  | ProviderRemoved (provider : Nat)
  | PauseToggled (paused : Bool)
  | CooldownSecondsUpdated (oldCooldown newCooldown : Nat)
  | BatchOpened (batchId : Nat)
  | BatchClosed (batchId : Nat)
  | SignalSubmitted (provider batchId : Nat)
  | ThresholdSet (batchId encryptedThreshold : Nat)
  | DecryptionRequested (requestId batchId : Nat)
  | DecryptionCompleted (requestId batchId lastSignal threshold : Nat)
      (triggerInheritance : Bool)
deriving DecidableEq, Repr

/-- The binding hash: keccak over `(handles, address(this))`, idealised
as the pair itself. -/
abbrev Hash := List Ct × Nat

/-- `struct DecryptionContext`. -/
structure DecryptionContext where
  batchId : Nat
  stateHash : Hash
  processed : Bool
deriving DecidableEq, Repr

/-- The default value of a never-written `decryptionContexts` slot:
all fields zero (`bytes32(0)` state hash, `processed = false`). -/
def defaultContext : DecryptionContext := ⟨0, ([], 0), false⟩

/-- Contract storage.  Addresses are `Nat` (0 is the zero address);
mappings are total functions with the zero default; `events` is the
append-only emission log. -/
structure State where
  owner : Nat
  isProvider : Nat → Bool
  paused : Bool
  cooldownSeconds : Nat
  lastSubmissionTime : Nat → Nat
  lastDecryptionRequestTime : Nat → Nat
  currentBatchId : Nat
  batchClosed : Nat → Bool
  decryptionContexts : Nat → DecryptionContext
  encryptedLastSignalTimestamp : Ct
  encryptedInactivityThreshold : Ct
  events : List Event

/-- The deployed contract's own address, a fixed nonzero constant bound
into every state hash (`address(this)`). -/
def selfAddress : Nat := 1

/-- `_hashCiphertexts`: `keccak256(abi.encode(cts, address(this)))`,
idealised as the injective pairing with the contract address. -/
def hashCiphertexts (cts : List Ct) : Hash := (cts, selfAddress)

/-- The constructor: the deployer becomes owner and initial provider,
batch 1 is opened, the cooldown defaults to 60 seconds, both encrypted
fields start uninitialized. -/
def initialState (deployer : Nat) : State where
  owner := deployer
  isProvider := fun a => if a = deployer then true else false
  paused := false
  cooldownSeconds := 60
  lastSubmissionTime := fun _ => 0
  lastDecryptionRequestTime := fun _ => 0
  currentBatchId := 1
  batchClosed := fun _ => false
  decryptionContexts := fun _ => defaultContext
  encryptedLastSignalTimestamp := .uninit
  encryptedInactivityThreshold := .uninit
  events := [.ProviderAdded deployer, .BatchOpened 1]

/-- `transferOwnership(address newOwner)`, `onlyOwner`. -/
def transferOwnership (s : State) (sender newOwner : Nat) : Except Err State :=
  if sender ≠ s.owner then .error .NotOwner
  else .ok { s with
    owner := newOwner
    events := s.events ++ [.OwnershipTransferred s.owner newOwner] }

/-- `addProvider(address provider)`, `onlyOwner`; a no-op when the
target is already a provider. -/
def addProvider (s : State) (sender provider : Nat) : Except Err State :=
  if sender ≠ s.owner then .error .NotOwner
  else if s.isProvider provider then .ok s
  else .ok { s with
    isProvider := fun a => if a = provider then true else s.isProvider a
    events := s.events ++ [.ProviderAdded provider] }

/-- `removeProvider(address provider)`, `onlyOwner`; a no-op when the
target is not a provider. -/
def removeProvider (s : State) (sender provider : Nat) : Except Err State :=
  if sender ≠ s.owner then .error .NotOwner
  else if s.isProvider provider then .ok { s with
    isProvider := fun a => if a = provider then false else s.isProvider a
    events := s.events ++ [.ProviderRemoved provider] }
  else .ok s

/-- `setPaused(bool _paused)`, `onlyOwner`; always applies and always
emits. -/
def setPaused (s : State) (sender : Nat) (b : Bool) : Except Err State :=
  if sender ≠ s.owner then .error .NotOwner
  else .ok { s with paused := b, events := s.events ++ [.PauseToggled b] }

/-- `setCooldownSeconds(uint256 newCooldown)`, `onlyOwner`. -/
def setCooldownSeconds (s : State) (sender newCooldown : Nat) : Except Err State :=
  if sender ≠ s.owner then .error .NotOwner
  else .ok { s with
    cooldownSeconds := newCooldown
    events := s.events ++ [.CooldownSecondsUpdated s.cooldownSeconds newCooldown] }

/-- `openNewBatch()`, `onlyOwner whenNotPaused`. -/
def openNewBatch (s : State) (sender : Nat) : Except Err State :=
  if sender ≠ s.owner then .error .NotOwner
  else if s.paused then .error .Paused
  else .ok { s with
    currentBatchId := s.currentBatchId + 1
    batchClosed := fun i => if i = s.currentBatchId + 1 then false else s.batchClosed i
    events := s.events ++ [.BatchOpened (s.currentBatchId + 1)] }

/-- `closeCurrentBatch()`, `onlyOwner whenNotPaused`. -/
def closeCurrentBatch (s : State) (sender : Nat) : Except Err State :=
  if sender ≠ s.owner then .error .NotOwner
  else if s.paused then .error .Paused
  else .ok { s with
    batchClosed := fun i => if i = s.currentBatchId then true else s.batchClosed i
    events := s.events ++ [.BatchClosed s.currentBatchId] }

/-- `_initIfNeeded(euint32 storage target, euint32 memory value)`.  The
body assigns `value` to the parameter `target`; in the source this
reassigns the local parameter copy and never writes the contract storage
field that was passed in, so the call has no effect on contract state.
The function returns the value of the local after the body, which the
caller discards — exactly mirroring that the write is lost. -/
def initIfNeeded (target value : Ct) : Ct :=
  if FHE.isInitialized target then target else value

/-- `submitLifeSignal(uint256 _encryptedTimestamp)`,
`onlyProvider whenNotPaused checkSubmissionCooldown`, then the body's
batch check; on success records the submission time, wraps the input,
runs the (ineffective) seed helper, and stores the homomorphic maximum
of the current aggregate and the new value. -/
def submitLifeSignal (s : State) (sender now encryptedTimestamp : Nat) :
    Except Err State :=
  if ¬ s.isProvider sender then .error .NotProvider
  else if s.paused then .error .Paused
  else if now < s.lastSubmissionTime sender + s.cooldownSeconds then
    .error .CooldownActive
  else if s.batchClosed s.currentBatchId then .error .BatchClosedOrInvalid
  else
    let newTimestamp := FHE.asEuint32 encryptedTimestamp
    let _seed := initIfNeeded s.encryptedLastSignalTimestamp newTimestamp
    .ok { s with
      lastSubmissionTime := fun a =>
        if a = sender then now else s.lastSubmissionTime a
      encryptedLastSignalTimestamp :=
        FHE.fheMax s.encryptedLastSignalTimestamp newTimestamp
      events := s.events ++ [.SignalSubmitted sender s.currentBatchId] }

/-- `setInactivityThreshold(uint256 _encryptedThreshold)`,
`onlyOwner whenNotPaused`; wraps the input, rejects an uninitialized
wrap, and overwrites the stored threshold wholesale. -/
def setInactivityThreshold (s : State) (sender encryptedThreshold : Nat) :
    Except Err State :=
  if sender ≠ s.owner then .error .NotOwner
  else if s.paused then .error .Paused
  else
    let threshold := FHE.asEuint32 encryptedThreshold
    if ¬ FHE.isInitialized threshold then .error .InvalidThreshold
    else .ok { s with
      encryptedInactivityThreshold := threshold
      events := s.events ++ [.ThresholdSet s.currentBatchId encryptedThreshold] }

/-- `checkInheritanceTrigger()`, `whenNotPaused checkDecryptionCooldown`
(modifiers run first), then the body's initialization and batch checks;
on success records the request time, builds the three-ciphertext set in
the fixed order, hashes it, and stores a fresh `DecryptionContext` under
the oracle-chosen `requestId` (`rid`, an environment parameter standing
for the return value of `FHE.requestDecryption`). -/
def checkInheritanceTrigger (s : State) (sender now rid : Nat) :
    Except Err State :=
  if s.paused then .error .Paused
  else if now < s.lastDecryptionRequestTime sender + s.cooldownSeconds then
    .error .CooldownActive
  else if ¬ (FHE.isInitialized s.encryptedLastSignalTimestamp &&
             FHE.isInitialized s.encryptedInactivityThreshold) then
    .error .InvalidThreshold
  else if s.batchClosed s.currentBatchId then .error .BatchClosedOrInvalid
  else
    let timeSinceLastSignal :=
      FHE.fheSub (FHE.asEuint32 now) s.encryptedLastSignalTimestamp
    let trigger := FHE.fheGe timeSinceLastSignal s.encryptedInactivityThreshold
    let cts := [FHE.toBytes32 s.encryptedLastSignalTimestamp,
                FHE.toBytes32 s.encryptedInactivityThreshold,
                FHE.toBytes32 trigger]
    let stateHash := hashCiphertexts cts
    .ok { s with
      lastDecryptionRequestTime := fun a =>
        if a = sender then now else s.lastDecryptionRequestTime a
      decryptionContexts := fun r =>
        if r = rid then ⟨s.currentBatchId, stateHash, false⟩
        else s.decryptionContexts r
      events := s.events ++ [.DecryptionRequested rid s.currentBatchId] }

/-- The decoded cleartext blob of the callback: the three fixed-width
fields in the agreed order (last-signal timestamp, threshold, trigger
flag). -/
structure Cleartexts where
  lastSignal : Nat
  threshold : Nat
  trigger : Bool
deriving DecidableEq, Repr

/-- Modelled from the spec: the decryption oracle's attestation.  The
oracle decrypts a committed ciphertext-handle list for a request and
signs the resulting cleartexts; the attestation therefore records the
request id and the ciphertext list it was produced for. -/
structure Proof where
  rid : Nat
  cts : List Ct
deriving DecidableEq, Repr

/-- The true decryption of a 3-element ciphertext list, decoded as
(last-signal, threshold, trigger flag); `none` for a list of any other
shape. -/
def decryptedOf (cts : List Ct) : Option Cleartexts :=
  match cts with
  | [a, b, c] => some ⟨FHE.decrypt a, FHE.decrypt b, FHE.decrypt c ≠ 0⟩
  | _ => none

/-- Modelled from the spec: `FHE.checkSignatures(requestId, cleartexts,
proof)` verifies the attestation for exactly this `(requestId,
cleartexts)` pair — it accepts iff the proof was produced for this
request id and the returned cleartexts are the true decryptions of the
ciphertext list the oracle attested. -/
def checkSignatures (requestId : Nat) (cleartexts : Cleartexts) (proof : Proof) :
    Bool :=
  decide (proof.rid = requestId) && decide (decryptedOf proof.cts = some cleartexts)

/-- `myCallback(uint256 requestId, bytes cleartexts, bytes proof)` — the
oracle-invoked callback, callable by anyone: replay guard, hash
recomputation from live state at the current time, attestation check,
decode, processed flip, completion event. -/
def myCallback (s : State) (now requestId : Nat) (cleartexts : Cleartexts)
    (proof : Proof) : Except Err State :=
  if (s.decryptionContexts requestId).processed then .error .ReplayDetected
  else
    let currentEncLastSignal := s.encryptedLastSignalTimestamp
    let currentEncThreshold := s.encryptedInactivityThreshold
    let currentEncTrigger :=
      FHE.fheGe (FHE.fheSub (FHE.asEuint32 now) currentEncLastSignal)
        currentEncThreshold
    let cts := [FHE.toBytes32 currentEncLastSignal,
                FHE.toBytes32 currentEncThreshold,
                FHE.toBytes32 currentEncTrigger]
    let currentHash := hashCiphertexts cts
    if currentHash ≠ (s.decryptionContexts requestId).stateHash then
      .error .StateMismatch
    else if ¬ checkSignatures requestId cleartexts proof then
      .error .DecryptionFailed
    else .ok { s with
      decryptionContexts := fun r =>
        if r = requestId then
          { s.decryptionContexts requestId with processed := true }
        else s.decryptionContexts r
      events := s.events ++
        [.DecryptionCompleted requestId (s.decryptionContexts requestId).batchId
          cleartexts.lastSignal cleartexts.threshold cleartexts.trigger] }

/-- Every external entry point of the contract, with its environment
inputs, as one step alphabet. -/
inductive Op where
  | transferOwnership (sender newOwner : Nat)
  | addProvider (sender provider : Nat)
  | removeProvider (sender provider : Nat)
  | setPaused (sender : Nat) (b : Bool)
  | setCooldownSeconds (sender newCooldown : Nat)
  | openNewBatch (sender : Nat)
  | closeCurrentBatch (sender : Nat)
  | submitLifeSignal (sender now encryptedTimestamp : Nat)
  | setInactivityThreshold (sender encryptedThreshold : Nat)
  | checkInheritanceTrigger (sender now rid : Nat)
  | myCallback (now requestId : Nat) (cleartexts : Cleartexts) (proof : Proof)

/-- Dispatch an operation against a state. -/
def applyOp (s : State) : Op → Except Err State
  | .transferOwnership sender newOwner => transferOwnership s sender newOwner
  | .addProvider sender provider => addProvider s sender provider
  | .removeProvider sender provider => removeProvider s sender provider
  | .setPaused sender b => setPaused s sender b
  | .setCooldownSeconds sender n => setCooldownSeconds s sender n
  | .openNewBatch sender => openNewBatch s sender
  | .closeCurrentBatch sender => closeCurrentBatch s sender
  | .submitLifeSignal sender now e => submitLifeSignal s sender now e
  | .setInactivityThreshold sender e => setInactivityThreshold s sender e
  | .checkInheritanceTrigger sender now rid =>
      checkInheritanceTrigger s sender now rid
  | .myCallback now rid c p => myCallback s now rid c p

/-- Extract the successor state of a successful call (default for a
reverted one; used only in closed concrete statements). -/
def getOk (r : Except Err State) : State :=
  match r with
  | .ok s => s
  | .error _ => initialState 0

/-! ## Helper lemmas -/

/-- Size of a ciphertext tree, to show an operation node never equals
one of its operands. -/
def ctSize : Ct → Nat
  | .uninit => 1
  | .triv _ => 1
  | .max a b => ctSize a + ctSize b + 1
  | .sub a b => ctSize a + ctSize b + 1
  | .ge a b => ctSize a + ctSize b + 1

theorem ctSize_pos (c : Ct) : 0 < ctSize c := by
  cases c <;> simp [ctSize]

/-- A homomorphic-max result handle is always fresh: it never coincides
with the handle of its left operand. -/
theorem fheMax_ne_left (a b : Ct) : FHE.fheMax a b ≠ a := by
  intro h
  have hs := congrArg ctSize h
  simp only [FHE.fheMax, ctSize] at hs
  have := ctSize_pos b
  omega

/-! ## Theorems for the claims -/

/-- Scenario base state: a fresh deployment by address 5. -/
def sBase : State := initialState 5

/-- C8: an owner call of `addProvider` on an existing provider, or of
`removeProvider` on a non-provider, succeeds, changes no state and emits
no event; in the other owner calls the provider flag is flipped and the
corresponding event appended, with no other change. -/
theorem addRemoveProvider_idempotent (s : State) (sender p : Nat)
    (hown : sender = s.owner) :
    (s.isProvider p = true → addProvider s sender p = .ok s) ∧
    (s.isProvider p = false →
      addProvider s sender p = .ok { s with
        isProvider := fun a => if a = p then true else s.isProvider a
        events := s.events ++ [.ProviderAdded p] }) ∧
    (s.isProvider p = false → removeProvider s sender p = .ok s) ∧
    (s.isProvider p = true →
      removeProvider s sender p = .ok { s with
        isProvider := fun a => if a = p then false else s.isProvider a
        events := s.events ++ [.ProviderRemoved p] }) := by
  subst hown
  refine ⟨?_, ?_, ?_, ?_⟩ <;> intro h <;> simp [addProvider, removeProvider, h]

/-- C8 witness: on a fresh deployment by 5, re-adding provider 5 is a
pure no-op, while adding the fresh address 7 flips its flag and emits
`ProviderAdded 7`. -/
theorem addRemoveProvider_idempotent_witness :
    sBase.isProvider 5 = true ∧ addProvider sBase 5 5 = .ok sBase ∧
    sBase.isProvider 7 = false ∧
    addProvider sBase 5 7 = .ok { sBase with
      isProvider := fun a => if a = 7 then true else sBase.isProvider a
      events := sBase.events ++ [.ProviderAdded 7] } :=
  ⟨rfl, (addRemoveProvider_idempotent sBase 5 5 rfl).1 rfl, rfl,
    (addRemoveProvider_idempotent sBase 5 7 rfl).2.1 rfl⟩

/-- C10: `transferOwnership` updates only the `owner` field (and the
event log): the provider map and every other field are untouched, so the
previous owner keeps its provider status and the new owner gains none;
any `newOwner` is accepted, and after transferring to the zero address
every owner-only operation fails with `NotOwner` for every nonzero
caller. -/
theorem transferOwnership_frame (s : State) (sender newOwner : Nat)
    (hown : sender = s.owner) :
    transferOwnership s sender newOwner = .ok { s with
      owner := newOwner
      events := s.events ++ [.OwnershipTransferred s.owner newOwner] } ∧
    (∀ s₂, transferOwnership s sender newOwner = .ok s₂ → newOwner = 0 →
      ∀ caller, caller ≠ 0 → ∀ x : Nat, ∀ b : Bool,
        transferOwnership s₂ caller x = .error .NotOwner ∧
        addProvider s₂ caller x = .error .NotOwner ∧
        removeProvider s₂ caller x = .error .NotOwner ∧
        setPaused s₂ caller b = .error .NotOwner ∧
        setCooldownSeconds s₂ caller x = .error .NotOwner ∧
        openNewBatch s₂ caller = .error .NotOwner ∧
        closeCurrentBatch s₂ caller = .error .NotOwner ∧
        setInactivityThreshold s₂ caller x = .error .NotOwner) := by
  subst hown
  constructor
  · simp [transferOwnership]
  · intro s₂ h h0 caller hc x b
    subst h0
    simp only [transferOwnership, ne_eq, not_true_eq_false, Bool.false_eq_true,
      if_false, ite_false, Except.ok.injEq] at h
    subst h
    refine ⟨?_, ?_, ?_, ?_, ?_, ?_, ?_, ?_⟩ <;>
      simp [transferOwnership, addProvider, removeProvider, setPaused,
        setCooldownSeconds, openNewBatch, closeCurrentBatch,
        setInactivityThreshold, hc]

/-- C10 witness: the deployer 5 transfers ownership to the zero address;
the provider map is untouched and a subsequent owner-only call by 5
fails with `NotOwner`. -/
theorem transferOwnership_frame_witness :
    transferOwnership sBase 5 0 = .ok { sBase with
      owner := 0
      events := sBase.events ++ [.OwnershipTransferred 5 0] } ∧
    addProvider (getOk (transferOwnership sBase 5 0)) 5 9 = .error .NotOwner :=
  ⟨(transferOwnership_frame sBase 5 0 rfl).1,
    ((transferOwnership_frame sBase 5 0 rfl).2
      (getOk (transferOwnership sBase 5 0)) rfl rfl 5 (by decide) 9 true).2.1⟩

/-- C9: a callback for a `requestId` that no `checkInheritanceTrigger`
ever stored hits the default context, whose `processed` flag is `false`
(so the replay guard does not fire) and whose zero `stateHash` can never
equal a hash recomputed from live state, so the call fails with
`StateMismatch` whatever the time, cleartexts and proof. -/
theorem unknownRequest_stateMismatch (s : State) (now rid : Nat)
    (c : Cleartexts) (p : Proof)
    (h : s.decryptionContexts rid = defaultContext) :
    defaultContext.processed = false ∧
    myCallback s now rid c p = .error .StateMismatch := by
  refine ⟨rfl, ?_⟩
  simp [myCallback, h, defaultContext, hashCiphertexts]

/-- C9 witness: on a fresh deployment, a callback for the never-issued
request id 42 fails with `StateMismatch`. -/
theorem unknownRequest_stateMismatch_witness :
    sBase.decryptionContexts 42 = defaultContext ∧
    myCallback sBase 1000 42 ⟨0, 0, false⟩ ⟨42, []⟩ = .error .StateMismatch :=
  ⟨rfl, (unknownRequest_stateMismatch sBase 1000 42 ⟨0, 0, false⟩ ⟨42, []⟩ rfl).2⟩

/-- Characterization of a successful `submitLifeSignal`. -/
theorem submitLifeSignal_ok (s : State) (sender now e : Nat)
    (hp : s.isProvider sender = true) (hpa : s.paused = false)
    (hcd : s.lastSubmissionTime sender + s.cooldownSeconds ≤ now)
    (hb : s.batchClosed s.currentBatchId = false) :
    submitLifeSignal s sender now e = .ok { s with
      lastSubmissionTime := fun a =>
        if a = sender then now else s.lastSubmissionTime a
      encryptedLastSignalTimestamp :=
        FHE.fheMax s.encryptedLastSignalTimestamp (FHE.asEuint32 e)
      events := s.events ++ [.SignalSubmitted sender s.currentBatchId] } := by
  simp [submitLifeSignal, hp, hpa, hb, Nat.not_lt.mpr hcd]

/-- A successful `submitLifeSignal` is exactly the update above. -/
theorem submitLifeSignal_inv (s : State) (sender now e : Nat) (s₁ : State)
    (h : submitLifeSignal s sender now e = .ok s₁) :
    s₁ = { s with
      lastSubmissionTime := fun a =>
        if a = sender then now else s.lastSubmissionTime a
      encryptedLastSignalTimestamp :=
        FHE.fheMax s.encryptedLastSignalTimestamp (FHE.asEuint32 e)
      events := s.events ++ [.SignalSubmitted sender s.currentBatchId] } := by
  unfold submitLifeSignal at h
  split at h
  · exact absurd h (by simp)
  · split at h
    · exact absurd h (by simp)
    · split at h
      · exact absurd h (by simp)
      · split at h
        · exact absurd h (by simp)
        · simp only [Except.ok.injEq] at h
          exact h.symm

/-- The ciphertext-handle list both `checkInheritanceTrigger` and
`myCallback` build from a state and a time, in the fixed protocol
order. -/
def requestCts (s : State) (now : Nat) : List Ct :=
  [FHE.toBytes32 s.encryptedLastSignalTimestamp,
   FHE.toBytes32 s.encryptedInactivityThreshold,
   FHE.toBytes32 (FHE.fheGe
     (FHE.fheSub (FHE.asEuint32 now) s.encryptedLastSignalTimestamp)
     s.encryptedInactivityThreshold)]

/-- Characterization of a successful `checkInheritanceTrigger`. -/
theorem checkInheritanceTrigger_ok (s : State) (sender now rid : Nat)
    (hpa : s.paused = false)
    (hcd : s.lastDecryptionRequestTime sender + s.cooldownSeconds ≤ now)
    (hi : (FHE.isInitialized s.encryptedLastSignalTimestamp &&
           FHE.isInitialized s.encryptedInactivityThreshold) = true)
    (hb : s.batchClosed s.currentBatchId = false) :
    checkInheritanceTrigger s sender now rid = .ok { s with
      lastDecryptionRequestTime := fun a =>
        if a = sender then now else s.lastDecryptionRequestTime a
      decryptionContexts := fun r =>
        if r = rid then
          ⟨s.currentBatchId, hashCiphertexts (requestCts s now), false⟩
        else s.decryptionContexts r
      events := s.events ++ [.DecryptionRequested rid s.currentBatchId] } := by
  simp [checkInheritanceTrigger, requestCts, hpa, hi, hb, Nat.not_lt.mpr hcd]

/-- A successful `checkInheritanceTrigger` is exactly the update
above. -/
theorem checkInheritanceTrigger_inv (s : State) (sender now rid : Nat)
    (s₁ : State) (h : checkInheritanceTrigger s sender now rid = .ok s₁) :
    s₁ = { s with
      lastDecryptionRequestTime := fun a =>
        if a = sender then now else s.lastDecryptionRequestTime a
      decryptionContexts := fun r =>
        if r = rid then
          ⟨s.currentBatchId, hashCiphertexts (requestCts s now), false⟩
        else s.decryptionContexts r
      events := s.events ++ [.DecryptionRequested rid s.currentBatchId] } := by
  unfold checkInheritanceTrigger at h
  split at h
  · exact absurd h (by simp)
  · split at h
    · exact absurd h (by simp)
    · split at h
      · exact absurd h (by simp)
      · split at h
        · exact absurd h (by simp)
        · simp only [requestCts, Except.ok.injEq] at h ⊢
          exact h.symm

/-- Characterization of a successful `myCallback`. -/
theorem myCallback_ok (s : State) (now rid : Nat) (c : Cleartexts) (p : Proof)
    (hpr : (s.decryptionContexts rid).processed = false)
    (hh : hashCiphertexts (requestCts s now) = (s.decryptionContexts rid).stateHash)
    (hsig : checkSignatures rid c p = true) :
    myCallback s now rid c p = .ok { s with
      decryptionContexts := fun r =>
        if r = rid then
          { s.decryptionContexts rid with processed := true }
        else s.decryptionContexts r
      events := s.events ++
        [.DecryptionCompleted rid (s.decryptionContexts rid).batchId
          c.lastSignal c.threshold c.trigger] } := by
  simp only [requestCts] at hh
  simp [myCallback, hpr, hh, hsig]

/-- A successful `myCallback` fired on an unprocessed context whose hash
matched, and is exactly the update above. -/
theorem myCallback_inv (s : State) (now rid : Nat) (c : Cleartexts) (p : Proof)
    (s₁ : State) (h : myCallback s now rid c p = .ok s₁) :
    (s.decryptionContexts rid).processed = false ∧
    hashCiphertexts (requestCts s now) = (s.decryptionContexts rid).stateHash ∧
    s₁ = { s with
      decryptionContexts := fun r =>
        if r = rid then
          { s.decryptionContexts rid with processed := true }
        else s.decryptionContexts r
      events := s.events ++
        [.DecryptionCompleted rid (s.decryptionContexts rid).batchId
          c.lastSignal c.threshold c.trigger] } := by
  unfold myCallback at h
  simp only [ne_eq] at h
  split at h
  · exact absurd h (by simp)
  · rename_i hpr
    split at h
    · exact absurd h (by simp)
    · rename_i hh
      split at h
      · exact absurd h (by simp)
      · simp only [Except.ok.injEq] at h
        rw [not_not] at hh
        refine ⟨by simpa using hpr, ?_, h.symm⟩
        simpa [requestCts] using hh

/-- C7: `currentBatchId` is 1 immediately after construction and never
decreases under any operation; a successful `openNewBatch` increments it
and marks the new id not-closed; a successful `closeCurrentBatch` keeps
the id and sets the closed flag of exactly the current batch id. -/
theorem batchId_monotone :
    (∀ deployer, (initialState deployer).currentBatchId = 1) ∧
    (∀ s op s₁, applyOp s op = .ok s₁ →
      s.currentBatchId ≤ s₁.currentBatchId) ∧
    (∀ s sender s₁, openNewBatch s sender = .ok s₁ →
      s₁.currentBatchId = s.currentBatchId + 1 ∧
      s₁.batchClosed s₁.currentBatchId = false) ∧
    (∀ s sender s₁, closeCurrentBatch s sender = .ok s₁ →
      s₁.currentBatchId = s.currentBatchId ∧
      s₁.batchClosed s.currentBatchId = true ∧
      ∀ i, i ≠ s.currentBatchId → s₁.batchClosed i = s.batchClosed i) := by
  refine ⟨fun _ => rfl, ?_, ?_, ?_⟩
  · intro s op s₁ h
    cases op <;> simp only [applyOp] at h
    case submitLifeSignal a now e =>
      have h2 := submitLifeSignal_inv _ _ _ _ _ h
      subst h2; exact Nat.le_refl _
    case checkInheritanceTrigger a now rid =>
      have h2 := checkInheritanceTrigger_inv _ _ _ _ _ h
      subst h2; exact Nat.le_refl _
    case myCallback now rid c p =>
      have h2 := (myCallback_inv _ _ _ _ _ _ h).2.2
      subst h2; exact Nat.le_refl _
    all_goals
      simp only [transferOwnership, addProvider, removeProvider, setPaused,
        setCooldownSeconds, openNewBatch, closeCurrentBatch,
        setInactivityThreshold] at h
    all_goals
      repeat' split at h
    all_goals
      first
      | exact Except.noConfusion h
      | (injection h with h; subst h;
         first
         | exact Nat.le_refl _
         | exact Nat.le_succ _)
  · intro s sender s₁ h
    unfold openNewBatch at h
    split at h
    · exact absurd h (by simp)
    · split at h
      · exact absurd h (by simp)
      · simp only [Except.ok.injEq] at h
        subst h
        exact ⟨rfl, by simp⟩
  · intro s sender s₁ h
    unfold closeCurrentBatch at h
    split at h
    · exact absurd h (by simp)
    · split at h
      · exact absurd h (by simp)
      · simp only [Except.ok.injEq] at h
        subst h
        exact ⟨rfl, by simp, fun i hi => by simp [hi]⟩

/-- C7 witness: on a fresh deployment the batch id is 1; opening a new
batch raises it to 2 and the new id is open; closing marks batch 1
closed. -/
theorem batchId_monotone_witness :
    (initialState 5).currentBatchId = 1 ∧
    (initialState 5).currentBatchId ≤
      (getOk (applyOp (initialState 5) (.openNewBatch 5))).currentBatchId ∧
    (getOk (openNewBatch (initialState 5) 5)).currentBatchId =
      (initialState 5).currentBatchId + 1 ∧
    (getOk (closeCurrentBatch (initialState 5) 5)).batchClosed
      (initialState 5).currentBatchId = true :=
  ⟨batchId_monotone.1 5,
   batchId_monotone.2.1 (initialState 5) (.openNewBatch 5) _ rfl,
   (batchId_monotone.2.2.1 (initialState 5) 5 _ rfl).1,
   (batchId_monotone.2.2.2 (initialState 5) 5 _ rfl).2.1⟩

/-- C6: `submitLifeSignal` rejects in the order `NotProvider`, `Paused`,
`CooldownActive` (whenever `now < lastSubmissionTime[caller] +
cooldownSeconds`), `BatchClosedOrInvalid`; and for one provider a first
call succeeds, any second call within the cooldown window fails with
`CooldownActive`, and any third call at or after the window's end
succeeds. -/
theorem submitLifeSignal_order_and_cooldown (s : State) (sender now e : Nat) :
    ((s.isProvider sender = false →
        submitLifeSignal s sender now e = .error .NotProvider) ∧
     (s.isProvider sender = true → s.paused = true →
        submitLifeSignal s sender now e = .error .Paused) ∧
     (s.isProvider sender = true → s.paused = false →
        now < s.lastSubmissionTime sender + s.cooldownSeconds →
        submitLifeSignal s sender now e = .error .CooldownActive) ∧
     (s.isProvider sender = true → s.paused = false →
        s.lastSubmissionTime sender + s.cooldownSeconds ≤ now →
        s.batchClosed s.currentBatchId = true →
        submitLifeSignal s sender now e = .error .BatchClosedOrInvalid)) ∧
    (s.isProvider sender = true → s.paused = false →
     s.lastSubmissionTime sender + s.cooldownSeconds ≤ now →
     s.batchClosed s.currentBatchId = false →
     ∃ s₁, submitLifeSignal s sender now e = .ok s₁ ∧
       (∀ t₂ e₂, t₂ < now + s.cooldownSeconds →
          submitLifeSignal s₁ sender t₂ e₂ = .error .CooldownActive) ∧
       (∀ t₃ e₃, now + s.cooldownSeconds ≤ t₃ →
          ∃ s₃, submitLifeSignal s₁ sender t₃ e₃ = .ok s₃)) := by
  constructor
  · refine ⟨?_, ?_, ?_, ?_⟩
    · intro h1
      simp [submitLifeSignal, h1]
    · intro h1 h2
      simp [submitLifeSignal, h1, h2]
    · intro h1 h2 h3
      simp [submitLifeSignal, h1, h2, h3]
    · intro h1 h2 h3 h4
      simp [submitLifeSignal, h1, h2, h4, Nat.not_lt.mpr h3]
  · intro hp hpa hcd hb
    refine ⟨_, submitLifeSignal_ok s sender now e hp hpa hcd hb, ?_, ?_⟩
    · intro t₂ e₂ ht
      simp [submitLifeSignal, hp, hpa, ht]
    · intro t₃ e₃ ht
      exact ⟨_, submitLifeSignal_ok _ sender t₃ e₃ hp hpa (by simpa using ht) hb⟩

/-- C6 witness: on a fresh deployment (cooldown 60), the deployer's
submission at time 100 succeeds, any resubmission before 160 fails with
`CooldownActive`, and any submission from 160 on succeeds. -/
theorem submitLifeSignal_order_and_cooldown_witness :
    sBase.isProvider 5 = true ∧
    (∃ s₁, submitLifeSignal sBase 5 100 1000 = .ok s₁ ∧
      (∀ t₂ e₂, t₂ < 100 + sBase.cooldownSeconds →
        submitLifeSignal s₁ 5 t₂ e₂ = .error .CooldownActive) ∧
      (∀ t₃ e₃, 100 + sBase.cooldownSeconds ≤ t₃ →
        ∃ s₃, submitLifeSignal s₁ 5 t₃ e₃ = .ok s₃)) :=
  ⟨rfl, (submitLifeSignal_order_and_cooldown sBase 5 100 1000).2 rfl rfl
    (by decide) rfl⟩

/-- Counterexample state for C5: a paused deployment whose encrypted
fields are still uninitialized. -/
def pausedUninitState : State := { initialState 5 with paused := true }

/-- C5 counterexample: in a paused system with an uninitialized
threshold, `checkInheritanceTrigger` fails with `Paused`, not with the
`InvalidThreshold` the claim predicts — the pause modifier runs before
the body's initialization check. -/
theorem checkTrigger_paused_before_invalidThreshold :
    checkInheritanceTrigger pausedUninitState 3 100 1 = .error .Paused ∧
    checkInheritanceTrigger pausedUninitState 3 100 1 ≠
      .error .InvalidThreshold := by
  refine ⟨rfl, ?_⟩
  intro h
  rw [show checkInheritanceTrigger pausedUninitState 3 100 1 = .error .Paused
    from rfl] at h
  injection h with h2
  exact Err.noConfusion h2

/-- C5 (amended): `checkInheritanceTrigger` checks its preconditions in
the order `Paused`, `CooldownActive`, `InvalidThreshold`
(initialization), `BatchClosedOrInvalid` — the two modifiers run before
the body's checks, so a paused system with an uninitialized threshold
fails with `Paused`. -/
theorem checkTrigger_order (s : State) (sender now rid : Nat) :
    (s.paused = true →
      checkInheritanceTrigger s sender now rid = .error .Paused) ∧
    (s.paused = false →
      now < s.lastDecryptionRequestTime sender + s.cooldownSeconds →
      checkInheritanceTrigger s sender now rid = .error .CooldownActive) ∧
    (s.paused = false →
      s.lastDecryptionRequestTime sender + s.cooldownSeconds ≤ now →
      (FHE.isInitialized s.encryptedLastSignalTimestamp &&
       FHE.isInitialized s.encryptedInactivityThreshold) = false →
      checkInheritanceTrigger s sender now rid = .error .InvalidThreshold) ∧
    (s.paused = false →
      s.lastDecryptionRequestTime sender + s.cooldownSeconds ≤ now →
      (FHE.isInitialized s.encryptedLastSignalTimestamp &&
       FHE.isInitialized s.encryptedInactivityThreshold) = true →
      s.batchClosed s.currentBatchId = true →
      checkInheritanceTrigger s sender now rid = .error .BatchClosedOrInvalid) := by
  refine ⟨?_, ?_, ?_, ?_⟩
  · intro h1
    simp [checkInheritanceTrigger, h1]
  · intro h1 h2
    simp [checkInheritanceTrigger, h1, h2]
  · intro h1 h2 h3
    simp [checkInheritanceTrigger, h1, h3, Nat.not_lt.mpr h2]
  · intro h1 h2 h3 h4
    simp [checkInheritanceTrigger, h1, h3, h4, Nat.not_lt.mpr h2]

/-- C5 witness: the paused-and-uninitialized state fails with `Paused`,
and the same uninitialized state unpaused fails with
`InvalidThreshold`. -/
theorem checkTrigger_order_witness :
    checkInheritanceTrigger pausedUninitState 3 100 1 = .error .Paused ∧
    checkInheritanceTrigger sBase 3 100 1 = .error .InvalidThreshold :=
  ⟨(checkTrigger_order pausedUninitState 3 100 1).1 rfl,
   (checkTrigger_order sBase 3 100 1).2.2.1 rfl (by decide) rfl⟩

/-- Every ciphertext decrypts to a 32-bit value. -/
theorem decrypt_lt (c : Ct) : FHE.decrypt c < 2 ^ 32 := by
  induction c with
  | uninit => norm_num [FHE.decrypt]
  | triv v => exact Nat.mod_lt _ (by norm_num)
  | max a b iha ihb => exact Nat.max_lt.mpr ⟨iha, ihb⟩
  | sub a b iha ihb => exact Nat.mod_lt _ (by norm_num)
  | ge a b iha ihb =>
      simp only [FHE.decrypt]
      split <;> norm_num

/-- Cleartext meaning of the trigger ciphertext: when the last-signal
cleartext is at most `now` and `now` fits in 32 bits, the encrypted
comparison decodes to the plain comparison `threshold ≤ now -
lastSignal`. -/
theorem decrypt_trigger (L T : Ct) (now : Nat) (hnow : now < 2 ^ 32)
    (hle : FHE.decrypt L ≤ now) :
    FHE.decrypt (FHE.fheGe (FHE.fheSub (FHE.asEuint32 now) L) T) =
      if FHE.decrypt T ≤ now - FHE.decrypt L then 1 else 0 := by
  have hL := decrypt_lt L
  have h0 : now % 2 ^ 32 = now := Nat.mod_eq_of_lt hnow
  have h2 : (now + 2 ^ 32 - FHE.decrypt L) % 2 ^ 32 = now - FHE.decrypt L := by
    have h3 : now + 2 ^ 32 - FHE.decrypt L = now - FHE.decrypt L + 2 ^ 32 := by
      omega
    rw [h3, Nat.add_mod_right]
    exact Nat.mod_eq_of_lt (by omega)
  simp only [FHE.fheGe, FHE.fheSub, FHE.asEuint32, FHE.decrypt, h0, h2]

/-- C1: from any state whose two encrypted values are initialized and
whose preconditions hold, `checkInheritanceTrigger` succeeds, and its
matching callback — delivered with no intervening state mutation, at the
same timestamp, with an honest oracle attestation over the requested
ciphertext set — also succeeds; the decoded trigger flag equals the
cleartext comparison `threshold ≤ now - lastSignal`. -/
theorem checkThenCallback_roundTrip (s : State) (sender now rid : Nat)
    (c : Cleartexts) (p : Proof)
    (hiL : FHE.isInitialized s.encryptedLastSignalTimestamp = true)
    (hiT : FHE.isInitialized s.encryptedInactivityThreshold = true)
    (hpa : s.paused = false)
    (hcd : s.lastDecryptionRequestTime sender + s.cooldownSeconds ≤ now)
    (hb : s.batchClosed s.currentBatchId = false)
    (hpf : p = ⟨rid, requestCts s now⟩)
    (hcl : decryptedOf p.cts = some c)
    (hnow : now < 2 ^ 32)
    (hle : FHE.decrypt s.encryptedLastSignalTimestamp ≤ now) :
    ∃ s₁ s₂, checkInheritanceTrigger s sender now rid = .ok s₁ ∧
      myCallback s₁ now rid c p = .ok s₂ ∧
      c.lastSignal = FHE.decrypt s.encryptedLastSignalTimestamp ∧
      c.threshold = FHE.decrypt s.encryptedInactivityThreshold ∧
      c.trigger = decide (FHE.decrypt s.encryptedInactivityThreshold ≤
        now - FHE.decrypt s.encryptedLastSignalTimestamp) ∧
      (s₂.decryptionContexts rid).processed = true := by
  subst hpf
  simp only [requestCts, FHE.toBytes32, decryptedOf, Option.some.injEq] at hcl
  subst hcl
  have htr := decrypt_trigger s.encryptedLastSignalTimestamp
    s.encryptedInactivityThreshold now hnow hle
  have hok := checkInheritanceTrigger_ok s sender now rid hpa hcd
    (by simp [hiL, hiT]) hb
  refine ⟨_, _, hok, myCallback_ok _ now rid _ _ ?_ ?_ ?_, ?_, ?_, ?_, ?_⟩
  · simp
  · simp [requestCts]
  · simp [checkSignatures, requestCts, FHE.toBytes32, decryptedOf]
  · rfl
  · rfl
  · simp only [htr]
    by_cases hc : FHE.decrypt s.encryptedInactivityThreshold ≤
        now - FHE.decrypt s.encryptedLastSignalTimestamp <;>
      simp [hc]
  · simp

/-- Scenario state for the protocol claims: a fresh deployment whose
aggregate decrypts to 1000 and whose threshold decrypts to 500. -/
def scenarioState : State := { initialState 5 with
  encryptedLastSignalTimestamp := Ct.triv 1000
  encryptedInactivityThreshold := Ct.triv 500 }

/-- The honest oracle attestation for a check on `scenarioState` at time
1600 under request id 7. -/
def scenarioProof : Proof := ⟨7, requestCts scenarioState 1600⟩

/-- C1 witness: last signal 1000, threshold 500, check at time 1600 by
caller 3; the round trip succeeds and the decoded trigger is `true`
since 1600 - 1000 = 600 ≥ 500. -/
theorem checkThenCallback_roundTrip_witness :
    ∃ s₁ s₂, checkInheritanceTrigger scenarioState 3 1600 7 = .ok s₁ ∧
      myCallback s₁ 1600 7 ⟨1000, 500, true⟩ scenarioProof = .ok s₂ ∧
      (1000 : Nat) = FHE.decrypt scenarioState.encryptedLastSignalTimestamp ∧
      (500 : Nat) = FHE.decrypt scenarioState.encryptedInactivityThreshold ∧
      true = decide (FHE.decrypt scenarioState.encryptedInactivityThreshold ≤
        1600 - FHE.decrypt scenarioState.encryptedLastSignalTimestamp) ∧
      (s₂.decryptionContexts 7).processed = true :=
  checkThenCallback_roundTrip scenarioState 3 1600 7 ⟨1000, 500, true⟩
    scenarioProof rfl rfl rfl (by decide) rfl rfl (by decide) (by decide)
    (by decide)

/-- C3: if a life-signal submission succeeds between
`checkInheritanceTrigger` and the delivery of its callback, the
aggregate handle has changed, so the callback's recomputed binding hash
differs from the stored `stateHash` and the callback fails with
`StateMismatch` — whatever the delivery time, cleartexts and proof; the
revert is all-or-nothing, so the stale decryption is never applied and
the context stays unprocessed. -/
theorem staleCallback_stateMismatch (s s₁ s₂ : State)
    (sender now₁ rid provider now₂ t : Nat)
    (h₁ : checkInheritanceTrigger s sender now₁ rid = .ok s₁)
    (h₂ : submitLifeSignal s₁ provider now₂ t = .ok s₂) :
    (s₂.decryptionContexts rid).processed = false ∧
    ∀ now₃ c p, myCallback s₂ now₃ rid c p = .error .StateMismatch := by
  have e₂ := submitLifeSignal_inv _ _ _ _ _ h₂
  subst e₂
  have e₁ := checkInheritanceTrigger_inv _ _ _ _ _ h₁
  subst e₁
  constructor
  · simp
  · intro now₃ c p
    have hmn := fheMax_ne_left s.encryptedLastSignalTimestamp (FHE.asEuint32 t)
    simp [myCallback, hashCiphertexts, requestCts, FHE.toBytes32, hmn,
      Ne.symm hmn]

/-- C3 witness: check on the scenario state at 1600 (request id 7), then
provider 5 submits timestamp 2000 at time 1700; the callback delivery at
1700 with the original honest attestation fails with `StateMismatch`. -/
theorem staleCallback_stateMismatch_witness :
    checkInheritanceTrigger scenarioState 3 1600 7 =
      .ok (getOk (checkInheritanceTrigger scenarioState 3 1600 7)) ∧
    submitLifeSignal (getOk (checkInheritanceTrigger scenarioState 3 1600 7))
        5 1700 2000 =
      .ok (getOk (submitLifeSignal
        (getOk (checkInheritanceTrigger scenarioState 3 1600 7)) 5 1700 2000)) ∧
    myCallback (getOk (submitLifeSignal
        (getOk (checkInheritanceTrigger scenarioState 3 1600 7)) 5 1700 2000))
        1700 7 ⟨1000, 500, true⟩ scenarioProof = .error .StateMismatch :=
  ⟨rfl, rfl,
    (staleCallback_stateMismatch scenarioState _ _ 3 1600 7 5 1700 2000
      rfl rfl).2 1700 ⟨1000, 500, true⟩ scenarioProof⟩

/-- C4: a successful callback delivery required the stored context's
`processed` flag to be `false` and flips it to `true`; any second
delivery for the same `requestId` then fails with `ReplayDetected`, and
the revert semantics leave the first delivery's effects untouched. -/
theorem callback_replay_guard (s : State) (now rid : Nat) (c : Cleartexts)
    (p : Proof) (s₁ : State) (h : myCallback s now rid c p = .ok s₁) :
    (s.decryptionContexts rid).processed = false ∧
    (s₁.decryptionContexts rid).processed = true ∧
    ∀ now₂ c₂ p₂, myCallback s₁ now₂ rid c₂ p₂ = .error .ReplayDetected := by
  obtain ⟨hpr, hh, e⟩ := myCallback_inv _ _ _ _ _ _ h
  subst e
  refine ⟨hpr, by simp, ?_⟩
  intro now₂ c₂ p₂
  simp [myCallback]

/-- The state after the scenario check. -/
def afterCheck : State := getOk (checkInheritanceTrigger scenarioState 3 1600 7)

/-- The state after the scenario check and its successful callback. -/
def afterCallback : State :=
  getOk (myCallback afterCheck 1600 7 ⟨1000, 500, true⟩ scenarioProof)

/-- C4 witness: the scenario callback succeeds once; its redelivery (at
time 2000) fails with `ReplayDetected` while the context stays
processed. -/
theorem callback_replay_guard_witness :
    myCallback afterCheck 1600 7 ⟨1000, 500, true⟩ scenarioProof =
      .ok afterCallback ∧
    (afterCallback.decryptionContexts 7).processed = true ∧
    myCallback afterCallback 2000 7 ⟨1000, 500, true⟩ scenarioProof =
      .error .ReplayDetected :=
  ⟨rfl,
   (callback_replay_guard afterCheck 1600 7 ⟨1000, 500, true⟩ scenarioProof
      afterCallback rfl).2.1,
   (callback_replay_guard afterCheck 1600 7 ⟨1000, 500, true⟩ scenarioProof
      afterCallback rfl).2.2 2000 ⟨1000, 500, true⟩ scenarioProof⟩

/-- C2 (code bug, recorded in spec §9): on the first accepted signal the
persistent aggregate is not durably seeded with the newly wrapped
timestamp.  `_initIfNeeded` computes the seed into its local parameter
copy (last conjunct) but the write never reaches the storage field; the
stored aggregate ends up as the homomorphic max applied to the
still-uninitialized aggregate handle, not the wrapped timestamp the
spec's seed path requires. -/
theorem submit_firstSignal_not_seeded :
    ∃ s₁, submitLifeSignal sBase 5 100 1000 = .ok s₁ ∧
      s₁.encryptedLastSignalTimestamp =
        FHE.fheMax Ct.uninit (FHE.asEuint32 1000) ∧
      s₁.encryptedLastSignalTimestamp ≠ FHE.asEuint32 1000 ∧
      initIfNeeded sBase.encryptedLastSignalTimestamp (FHE.asEuint32 1000) =
        FHE.asEuint32 1000 :=
  ⟨getOk (submitLifeSignal sBase 5 100 1000), rfl, rfl, by decide, rfl⟩

end InheritanceAiFhe
